import Mathlib

/-!
Verification development for the `llama_deploy` client resource-model layer
(`llama_deploy/client/models/apiserver.py`).

The Python operations are shallowly embedded as pure Lean functions: every
HTTP interaction is made explicit by passing the server's response (or the
sequence of streaming responses) as an argument, and the request each
operation would issue is embedded as a separate request-builder definition.
JSON decoding (Python's `json.loads` / `httpx.Response.json()`) is embedded
as an executable fuel-based parser over the response body string; a parse
failure models the decode exception.
-/

namespace LlamaDeploy

/-- JSON values, the result of decoding a response body. -/
inductive Json where
  | null : Json
  | bool : Bool → Json
  | num : Int → Json
  | str : String → Json
  | arr : List Json → Json
  | obj : List (String × Json) → Json

/-- The opening brace character, written via its code point. -/
def lbrace : Char := Char.ofNat 123

/-- The closing brace character, written via its code point. -/
def rbrace : Char := Char.ofNat 125

def isWsChar (c : Char) : Bool :=
  c = ' ' || c = '\n' || c = '\t' || c = '\r'

def skipWs : List Char → List Char
  | [] => []
  | c :: cs => if isWsChar c then skipWs cs else c :: cs

/-- Decode a single escape character of a JSON string literal. -/
def unescape (c : Char) : Option Char :=
  if c = '\"' then some '\"'
  else if c = '\\' then some '\\'
  else if c = '/' then some '/'
  else if c = 'n' then some '\n'
  else if c = 't' then some '\t'
  else if c = 'r' then some '\r'
  else none

/-- Parse the characters of a JSON string literal after the opening quote,
returning the decoded characters and the input after the closing quote. -/
def parseStrChars : List Char → Option (List Char × List Char)
  | [] => none
  | c :: cs =>
    if c = '\"' then some ([], cs)
    else if c = '\\' then
      match cs with
      | [] => none
      | e :: cs2 =>
        match unescape e with
        | none => none
        | some u =>
          match parseStrChars cs2 with
          | none => none
          | some (s, r) => some (u :: s, r)
    else
      match parseStrChars cs with
      | none => none
      | some (s, r) => some (c :: s, r)

/-- Accumulate a run of decimal digits. -/
def digitsVal : List Char → Nat → Nat × List Char
  | [], acc => (acc, [])
  | c :: cs, acc =>
    if c.isDigit then digitsVal cs (acc * 10 + (c.toNat - 48)) else (acc, c :: cs)

/-- Parse a JSON integer literal (floats are not needed by any embedded body). -/
def parseNum : List Char → Option (Json × List Char)
  | [] => none
  | c :: cs =>
    if c = '-' then
      match cs with
      | [] => none
      | d :: _ =>
        if d.isDigit then
          let (n, r) := digitsVal cs 0
          some (Json.num (-(n : Int)), r)
        else none
    else if c.isDigit then
      let (n, r) := digitsVal (c :: cs) 0
      some (Json.num (n : Int), r)
    else none

mutual

/-- Fuel-based parser for a JSON value. -/
def parseValue (fuel : Nat) (input : List Char) : Option (Json × List Char) :=
  match fuel with
  | 0 => none
  | f + 1 =>
    match skipWs input with
    | [] => none
    | c :: cs =>
      if c = '\"' then
        match parseStrChars cs with
        | none => none
        | some (s, r) => some (Json.str (String.mk s), r)
      else if c = lbrace then
        match parseObjItems f cs with
        | none => none
        | some (kvs, r) => some (Json.obj kvs, r)
      else if c = '[' then
        match parseArrItems f cs with
        | none => none
        | some (js, r) => some (Json.arr js, r)
      else if c = 'n' then
        match cs with
        | 'u' :: 'l' :: 'l' :: r => some (Json.null, r)
        | _ => none
      else if c = 't' then
        match cs with
        | 'r' :: 'u' :: 'e' :: r => some (Json.bool true, r)
        | _ => none
      else if c = 'f' then
        match cs with
        | 'a' :: 'l' :: 's' :: 'e' :: r => some (Json.bool false, r)
        | _ => none
      else parseNum (c :: cs)

/-- Fuel-based parser for the items of a JSON array, after the opening bracket. -/
def parseArrItems (fuel : Nat) (input : List Char) : Option (List Json × List Char) :=
  match fuel with
  | 0 => none
  | f + 1 =>
    match skipWs input with
    | ']' :: r => some ([], r)
    | other =>
      match parseValue f other with
      | none => none
      | some (j, rest) =>
        match skipWs rest with
        | ',' :: r2 =>
          match parseArrItems f r2 with
          | none => none
          | some (js, r3) => some (j :: js, r3)
        | ']' :: r2 => some ([j], r2)
        | _ => none

/-- Fuel-based parser for the members of a JSON object, after the opening brace. -/
def parseObjItems (fuel : Nat) (input : List Char) : Option (List (String × Json) × List Char) :=
  match fuel with
  | 0 => none
  | f + 1 =>
    match skipWs input with
    | [] => none
    | c :: cs =>
      if c = rbrace then some ([], cs)
      else if c = '\"' then
        match parseStrChars cs with
        | none => none
        | some (k, rest) =>
          match skipWs rest with
          | ':' :: r2 =>
            match parseValue f r2 with
            | none => none
            | some (v, r3) =>
              match skipWs r3 with
              | ',' :: r4 =>
                match parseObjItems f r4 with
                | none => none
                | some (kvs, r5) => some ((String.mk k, v) :: kvs, r5)
              | d :: r4 =>
                if d = rbrace then some ([(String.mk k, v)], r4) else none
              | [] => none
          | _ => none
      else none

end

/-- Decode a whole string as one JSON document, the model of `json.loads` and
of `httpx.Response.json()`: the document must span the entire input. -/
def parseJsonStr (s : String) : Option Json :=
  match parseValue (2 * s.length + 2) s.data with
  | none => none
  | some (j, rest) => if skipWs rest = [] then some j else none

/-- Look up a key in a decoded JSON object, the model of Python `dict` access. -/
def lookupField (fs : List (String × Json)) (k : String) : Option Json :=
  match fs.find? (fun p => p.1 = k) with
  | none => none
  | some p => some p.2

/-- How Python's f-string renders a decoded JSON value (only strings appear in
the bodies exercised here; the remaining cases mirror `str()` where simple). -/
def Json.pyStr : Json → String
  | Json.str s => s
  | Json.num n => toString n
  | Json.bool b => if b then "True" else "False"
  | Json.null => "None"
  | Json.arr _ => "[...]"
  | Json.obj _ => "[...]"

/-- Errors an operation can raise: an HTTP status error (from
`raise_for_status` / the shared client), a JSON decode failure, a pydantic
validation failure, a Python `AttributeError`, `KeyError` or `TypeError`. -/
inductive Err where
  | httpStatus : Nat → Err
  | decodeError : Err
  | validationError : Err
  | attrError : Err
  | keyError : Err
  | typeError : Err
deriving DecidableEq

/-- An HTTP request as issued by this layer: its method, URL, query
parameters, and the TLS-verification and timeout options it carries
(`timeout = none` means no explicit timeout was passed, i.e. the HTTP
library default applies). -/
structure HttpRequest where
  method : String
  url : String
  params : List (String × String)
  verify : Bool
  timeout : Option Nat
deriving DecidableEq

/-- An HTTP response: status code and raw body text (`.text`); `.json()` is
modelled by `parseJsonStr` on `body`. -/
structure Response where
  status_code : Nat
  body : String
deriving DecidableEq

/-- One response to a streaming connection attempt of `Task.events`: status
code and the lines of the streamed body. -/
structure StreamResponse where
  status_code : Nat
  lines : List String
deriving DecidableEq

/-- Modelled from the spec: the shared `Client` (its module is not under
`src/`) owns the connection configuration — base URL, TLS-verification
flag and timeout — and performs raw HTTP calls. -/
structure Client where
  api_server_url : String
  disable_ssl : Bool
  timeout : Nat
deriving DecidableEq

/-! ### Resource models

The base `Model`/`Collection` classes (`client/models/model.py`) are not
under `src/`. Modelled from the spec: a `Model` is identified by an opaque
string `id`, scoped to a `Client`, and carries a `make_sync` flag fixing its
calling mode (the Python attribute `_instance_is_sync`); a `Collection`
additionally holds a key-to-model mapping populated at construction. The
`instance` constructor is pure metadata assembly. Each Python subclass of
`apiserver.py` becomes one structure carrying its extra fields. -/

/-- A model representing a session. -/
structure Session where
  client : Client
  make_sync : Bool
  id : String
deriving DecidableEq

/-- A model representing a task belonging to a given session in the given
deployment. -/
structure Task where
  client : Client
  make_sync : Bool
  id : String
  deployment_id : String
  session_id : String
deriving DecidableEq

/-- A model representing a deployment. -/
structure Deployment where
  client : Client
  make_sync : Bool
  id : String
deriving DecidableEq

/-- A model representing the API Server instance. -/
structure ApiServer where
  client : Client
  make_sync : Bool
  id : String
deriving DecidableEq

/-- A model representing a collection of sessions for a given deployment. -/
structure SessionCollection where
  client : Client
  make_sync : Bool
  deployment_id : String
  items : List (String × Session)
deriving DecidableEq

/-- A model representing a collection of tasks for a given deployment. -/
structure TaskCollection where
  client : Client
  make_sync : Bool
  deployment_id : String
  items : List (String × Task)
deriving DecidableEq

/-- A model representing a collection of deployments currently active. -/
structure DeploymentCollection where
  client : Client
  make_sync : Bool
  items : List (String × Deployment)
deriving DecidableEq

/-- Modelled from the spec: `Session.instance(client=..., make_sync=..., id=...)`,
pure metadata assembly. -/
def Session.instance' (client : Client) (make_sync : Bool) (id : String) : Session :=
  ⟨client, make_sync, id⟩

/-- Modelled from the spec: `Task.instance(...)`, pure metadata assembly. -/
def Task.instance' (client : Client) (make_sync : Bool) (id : String)
    (deployment_id : String) (session_id : String) : Task :=
  ⟨client, make_sync, id, deployment_id, session_id⟩

/-- Modelled from the spec: `Deployment.instance(...)`, pure metadata assembly. -/
def Deployment.instance' (client : Client) (make_sync : Bool) (id : String) : Deployment :=
  ⟨client, make_sync, id⟩

/-- Modelled from the spec: `ApiServer.instance(...)`, pure metadata assembly. -/
def ApiServer.instance' (client : Client) (make_sync : Bool) (id : String) : ApiServer :=
  ⟨client, make_sync, id⟩

/-- Modelled from the spec: `SessionCollection.instance(...)`, wrapping
pre-supplied items without touching the network. -/
def SessionCollection.instance' (client : Client) (make_sync : Bool)
    (deployment_id : String) (items : List (String × Session)) : SessionCollection :=
  ⟨client, make_sync, deployment_id, items⟩

/-- Modelled from the spec: `TaskCollection.instance(...)`. -/
def TaskCollection.instance' (client : Client) (make_sync : Bool)
    (deployment_id : String) (items : List (String × Task)) : TaskCollection :=
  ⟨client, make_sync, deployment_id, items⟩

/-- Modelled from the spec: `DeploymentCollection.instance(...)`. -/
def DeploymentCollection.instance' (client : Client) (make_sync : Bool)
    (items : List (String × Deployment)) : DeploymentCollection :=
  ⟨client, make_sync, items⟩

/-! ### Python dict construction

The listing operations build their items with a Python dict comprehension;
a dict keeps, for each key, the last value written, at the position of the
key's first occurrence. -/

/-- Insert one key/value pair into an association list with Python `dict`
semantics: overwrite an existing key in place, else append. -/
def pyDictInsert {α : Type} (acc : List (String × α)) (kv : String × α) :
    List (String × α) :=
  if acc.any (fun p => p.1 == kv.1) then
    acc.map (fun p => if p.1 == kv.1 then kv else p)
  else acc ++ [kv]

/-- The Python dict built from a sequence of key/value pairs. -/
def pyDict {α : Type} (l : List (String × α)) : List (String × α) :=
  l.foldl pyDictInsert []

/-! ### Types returned by operations

`llama_deploy.types` is not under `src/`; these are modelled from the spec. -/

/-- Modelled from the spec: the server-health enumeration used by the status
check (`DOWN`, `UNHEALTHY`, `HEALTHY`). -/
inductive StatusEnum where
  | HEALTHY : StatusEnum
  | UNHEALTHY : StatusEnum
  | DOWN : StatusEnum
deriving DecidableEq

/-- Modelled from the spec: the status object returned by `ApiServer.status`,
carrying the health value, a human-readable message and the deployment list. -/
structure Status where
  status : StatusEnum
  status_message : String
  deployments : List Json

/-- Modelled from the spec: the result object of a task; `llama_deploy.types`
is not under `src/`, so only the payload field needed by validation is kept. -/
structure TaskResult where
  result : String
deriving DecidableEq

/-- Modelled from the spec: pydantic validation of a decoded JSON document as
a `TaskResult` (an object carrying the result payload). -/
def validateTaskResult : Json → Except Err TaskResult
  | Json.obj fs =>
    match lookupField fs "result" with
    | some (Json.str s) => Except.ok ⟨s⟩
    | _ => Except.error Err.validationError
  | _ => Except.error Err.validationError

/-- Pydantic's `model_validate_json`: it accepts only a string (or bytes)
payload, parses it as JSON and validates the result; any non-string input
raises a validation error. -/
def TaskResult.model_validate_json (j : Json) : Except Err TaskResult :=
  match j with
  | Json.str s =>
    match parseJsonStr s with
    | none => Except.error Err.validationError
    | some j2 => validateTaskResult j2
  | _ => Except.error Err.validationError

/-! ### Request builders

For each operation, the request it issues, rebuilt from the source: every
call through `self.client.request(...)` passes
`verify=not self.client.disable_ssl` and `timeout=self.client.timeout`;
`Task.events` instead opens its own `httpx.AsyncClient(verify=...)` and
passes no timeout. (Request bodies — the JSON payload of the task runs and
the multipart deployment file — do not bear on any claim and are omitted
from the record.) -/

def SessionCollection.deleteRequest (self : SessionCollection) (session_id : String) :
    HttpRequest :=
  ⟨"POST",
    self.client.api_server_url ++ "/deployments/" ++ self.deployment_id ++ "/sessions/delete",
    [("session_id", session_id)], !self.client.disable_ssl, some self.client.timeout⟩

def SessionCollection.createRequest (self : SessionCollection) : HttpRequest :=
  ⟨"POST",
    self.client.api_server_url ++ "/deployments/" ++ self.deployment_id ++ "/sessions/create",
    [], !self.client.disable_ssl, some self.client.timeout⟩

def Task.resultsRequest (self : Task) : HttpRequest :=
  ⟨"GET",
    self.client.api_server_url ++ "/deployments/" ++ self.deployment_id ++ "/tasks/"
      ++ self.id ++ "/results",
    [("session_id", self.session_id)], !self.client.disable_ssl, some self.client.timeout⟩

/-- The streaming request of `Task.events`: issued by a fresh
`httpx.AsyncClient(verify=not self.client.disable_ssl)`, with no explicit
timeout option. -/
def Task.eventsRequest (self : Task) : HttpRequest :=
  ⟨"GET",
    self.client.api_server_url ++ "/deployments/" ++ self.deployment_id ++ "/tasks/"
      ++ self.id ++ "/events",
    [("session_id", self.session_id)], !self.client.disable_ssl, none⟩

def TaskCollection.runRequest (self : TaskCollection) : HttpRequest :=
  ⟨"POST",
    self.client.api_server_url ++ "/deployments/" ++ self.deployment_id ++ "/tasks/run",
    [], !self.client.disable_ssl, some self.client.timeout⟩

def TaskCollection.createRequest (self : TaskCollection) : HttpRequest :=
  ⟨"POST",
    self.client.api_server_url ++ "/deployments/" ++ self.deployment_id ++ "/tasks/create",
    [], !self.client.disable_ssl, some self.client.timeout⟩

def Deployment.tasksRequest (self : Deployment) : HttpRequest :=
  ⟨"GET", self.client.api_server_url ++ "/deployments/" ++ self.id ++ "/tasks",
    [], !self.client.disable_ssl, some self.client.timeout⟩

def Deployment.sessionsRequest (self : Deployment) : HttpRequest :=
  ⟨"GET", self.client.api_server_url ++ "/deployments/" ++ self.id ++ "/sessions",
    [], !self.client.disable_ssl, some self.client.timeout⟩

def DeploymentCollection.createRequest (self : DeploymentCollection) : HttpRequest :=
  ⟨"POST", self.client.api_server_url ++ "/deployments/create",
    [], !self.client.disable_ssl, some self.client.timeout⟩

def DeploymentCollection.getRequest (self : DeploymentCollection) (deployment_id : String) :
    HttpRequest :=
  ⟨"GET", self.client.api_server_url ++ "/deployments/" ++ deployment_id,
    [], !self.client.disable_ssl, some self.client.timeout⟩

def ApiServer.statusRequest (self : ApiServer) : HttpRequest :=
  ⟨"GET", self.client.api_server_url ++ "/status/",
    [], !self.client.disable_ssl, some self.client.timeout⟩

def ApiServer.deploymentsRequest (self : ApiServer) : HttpRequest :=
  ⟨"GET", self.client.api_server_url ++ "/deployments/",
    [], !self.client.disable_ssl, some self.client.timeout⟩

/-! ### Operations

Each operation is embedded as a pure function of the resource object and the
server response to the request it issues. The shared client (modelled from
the spec) returns the HTTP response without raising on error statuses — the
status check inspects `r.status_code` itself — while a connection failure is
passed in as the `error` side where the source catches it. -/

/-- Sequential effectful map in the `Except` monad, stopping at the first
error — how a Python comprehension evaluates its element expressions. -/
def mapME {α β : Type} (f : α → Except Err β) : List α → Except Err (List β)
  | [] => Except.ok []
  | x :: xs =>
    match f x with
    | Except.error e => Except.error e
    | Except.ok y =>
      match mapME f xs with
      | Except.error e => Except.error e
      | Except.ok ys => Except.ok (y :: ys)

/-- `SessionCollection.create`: decodes the response as a session definition
(`SessionDefinition(**r.json())`, an object with a `session_id` string) and
returns a new `Session` in the collection's calling mode. -/
def SessionCollection.create (self : SessionCollection) (r : Response) :
    Except Err Session :=
  match parseJsonStr r.body with
  | none => Except.error Err.decodeError
  | some (Json.obj fs) =>
    match lookupField fs "session_id" with
    | some (Json.str sid) =>
      Except.ok (Session.instance' self.client self.make_sync sid)
    | _ => Except.error Err.validationError
  | some _ => Except.error Err.typeError

/-- `Task.results`: decodes the response body as JSON and validates the
decoded value again as a JSON document
(`TaskResult.model_validate_json(r.json())`). -/
def Task.results (_self : Task) (r : Response) : Except Err TaskResult :=
  match parseJsonStr r.body with
  | none => Except.error Err.decodeError
  | some j => TaskResult.model_validate_json j

/-- `TaskCollection.run`: returns the decoded response body (`r.json()`). -/
def TaskCollection.run (_self : TaskCollection) (r : Response) : Except Err Json :=
  match parseJsonStr r.body with
  | none => Except.error Err.decodeError
  | some j => Except.ok j

/-- `TaskCollection.create`: reads `task_id` and `session_id` from the decoded
response (`response_fields["..."]`) and returns a new `Task` in the
collection's calling mode. -/
def TaskCollection.create (self : TaskCollection) (r : Response) : Except Err Task :=
  match parseJsonStr r.body with
  | none => Except.error Err.decodeError
  | some (Json.obj fs) =>
    match lookupField fs "task_id", lookupField fs "session_id" with
    | some (Json.str tid), some (Json.str sid) =>
      Except.ok (Task.instance' self.client self.make_sync tid self.deployment_id sid)
    | some _, some _ => Except.error Err.validationError
    | _, _ => Except.error Err.keyError
  | some _ => Except.error Err.typeError

/-- `Deployment.tasks`: iterates the decoded list and builds the items dict
with the constant key `"id"`; each element is a decoded JSON object (a
Python dict), so the attribute access `task_def.task_id` raises
`AttributeError` as soon as the list is non-empty. -/
def Deployment.tasks (self : Deployment) (r : Response) : Except Err TaskCollection :=
  match parseJsonStr r.body with
  | none => Except.error Err.decodeError
  | some (Json.arr []) =>
    Except.ok (TaskCollection.instance' self.client self.make_sync self.id (pyDict []))
  | some (Json.arr (_ :: _)) => Except.error Err.attrError
  | some _ => Except.error Err.typeError

/-- `Deployment.sessions`: same shape as `Deployment.tasks`, with
`session_def.session_id` raising `AttributeError` on decoded dicts. -/
def Deployment.sessions (self : Deployment) (r : Response) : Except Err SessionCollection :=
  match parseJsonStr r.body with
  | none => Except.error Err.decodeError
  | some (Json.arr []) =>
    Except.ok (SessionCollection.instance' self.client self.make_sync self.id (pyDict []))
  | some (Json.arr (_ :: _)) => Except.error Err.attrError
  | some _ => Except.error Err.typeError

/-- `DeploymentCollection.create`: reads `r.json().get("name")` and returns a
new `Deployment` in the collection's calling mode. -/
def DeploymentCollection.create (self : DeploymentCollection) (r : Response) :
    Except Err Deployment :=
  match parseJsonStr r.body with
  | none => Except.error Err.decodeError
  | some (Json.obj fs) =>
    match lookupField fs "name" with
    | some (Json.str n) =>
      Except.ok (Deployment.instance' self.client self.make_sync n)
    | _ => Except.error Err.validationError
  | some _ => Except.error Err.attrError

/-- `DeploymentCollection.get`: the response body is ignored (see the source
comment); the `Deployment` is built purely from the requested id. -/
def DeploymentCollection.get (self : DeploymentCollection) (deployment_id : String)
    (_r : Response) : Deployment :=
  Deployment.instance' self.client self.make_sync deployment_id

/-- A deployment name of the list response; `Deployment.instance(id=name)`
requires a string id. -/
def nameOfJson : Json → Except Err String
  | Json.str s => Except.ok s
  | _ => Except.error Err.validationError

/-- `ApiServer.deployments`: iterates the decoded name list and builds the
items dict with the constant key `"id"`, one freshly constructed
`Deployment` per name, then wraps them in a `DeploymentCollection`. -/
def ApiServer.deployments (self : ApiServer) (r : Response) :
    Except Err DeploymentCollection :=
  match parseJsonStr r.body with
  | none => Except.error Err.decodeError
  | some (Json.arr xs) =>
    match mapME nameOfJson xs with
    | Except.error e => Except.error e
    | Except.ok names =>
      Except.ok (DeploymentCollection.instance' self.client self.make_sync
        (pyDict (names.map
          (fun n => ("id", Deployment.instance' self.client self.make_sync n)))))
  | some _ => Except.error Err.typeError

/-- `ApiServer.status`: maps a connection failure to `DOWN`; decodes the body
(`body = r.json()`) and maps an error status to `UNHEALTHY` with the raw
text as message; otherwise reads the `deployments` list and builds the
`HEALTHY` message. -/
def ApiServer.status (_self : ApiServer) (conn : Except Unit Response) :
    Except Err Status :=
  match conn with
  | Except.error _ => Except.ok ⟨StatusEnum.DOWN, "API Server is down", []⟩
  | Except.ok r =>
    if 400 ≤ r.status_code then
      match parseJsonStr r.body with
      | none => Except.error Err.decodeError
      | some _ => Except.ok ⟨StatusEnum.UNHEALTHY, r.body, []⟩
    else
      match parseJsonStr r.body with
      | none => Except.error Err.decodeError
      | some (Json.obj fs) =>
        let deployments :=
          match lookupField fs "deployments" with
          | some (Json.arr ds) => ds
          | _ => []
        let description :=
          if deployments.isEmpty then
            "Llama Deploy is up and running." ++ "\nCurrently there are no active deployments"
          else
            "Llama Deploy is up and running." ++ "\nActive deployments:"
              ++ String.join (deployments.map (fun d => "\n- " ++ d.pyStr))
        Except.ok ⟨StatusEnum.HEALTHY, description, deployments⟩
      | some _ => Except.error Err.attrError

/-! ### The events stream (`Task.events`)

The generator is embedded as a function of the sequence of responses the
server gives to the successive connection attempts. Its observable behaviour
is the trace of poll-interval sleeps and yielded events, together with the
final outcome. -/

/-- The module constant `DEFAULT_POLL_INTERVAL = 0.5`. -/
def DEFAULT_POLL_INTERVAL : ℚ := 1 / 2

/-- One observable step of the events generator: a poll-interval sleep or a
yielded decoded event. -/
inductive EventsItem where
  | sleep : ℚ → EventsItem
  | yieldEv : Json → EventsItem

/-- How the events generator ends: the stream completed cleanly, an error was
raised, or the (finite) response sequence was exhausted while still polling. -/
inductive EventsOutcome where
  | done : EventsOutcome
  | failed : Err → EventsOutcome
  | pending : EventsOutcome
deriving DecidableEq

/-- Decode the streamed lines in order with `json.loads`, stopping at the
first decode failure. -/
def decodeAll : List String → List Json × Option Err
  | [] => ([], none)
  | l :: ls =>
    match parseJsonStr l with
    | none => ([], some Err.decodeError)
    | some j =>
      let (js, e) := decodeAll ls
      (j :: js, e)

/-- `Task.events`: for each connection attempt, `raise_for_status` raises on a
non-2xx status; a 404 is caught, a poll-interval sleep happens and the
connection is retried; any other raise propagates at once; on success each
line is decoded and yielded, and the loop breaks. -/
def Task.events (self : Task) : List StreamResponse → List EventsItem × EventsOutcome
  | [] => ([], EventsOutcome.pending)
  | r :: rest =>
    if 200 ≤ r.status_code ∧ r.status_code < 300 then
      match decodeAll r.lines with
      | (js, none) => (js.map EventsItem.yieldEv, EventsOutcome.done)
      | (js, some e) => (js.map EventsItem.yieldEv, EventsOutcome.failed e)
    else if r.status_code = 404 then
      (EventsItem.sleep DEFAULT_POLL_INTERVAL :: (Task.events self rest).1,
        (Task.events self rest).2)
    else ([], EventsOutcome.failed (Err.httpStatus r.status_code))

/-! ### Sync/async duality

Modelled from the spec: the dual-mode machinery lives in the base model
module, which is not under `src/`. An asynchronous computation is a
computation that may suspend at network-call boundaries before resolving to
a value or a raised error; the blocking adapter drives it to completion on
its own execution context and hands the resolved outcome to the caller. -/

/-- Modelled from the spec: an asynchronous computation — a chain of
suspension points ending in a resolved value or raised error. -/
inductive AsyncComp (α : Type) where
  | done : Except Err α → AsyncComp α
  | suspend : AsyncComp α → AsyncComp α

/-- The outcome an async caller eventually awaits. -/
def AsyncComp.resolve {α : Type} : AsyncComp α → Except Err α
  | AsyncComp.done v => v
  | AsyncComp.suspend k => k.resolve

/-- The number of suspension points of the computation. -/
def AsyncComp.depth {α : Type} : AsyncComp α → Nat
  | AsyncComp.done _ => 0
  | AsyncComp.suspend k => k.depth + 1

/-- Modelled from the spec: the blocking adapter — it steps the asynchronous
implementation on a dedicated execution context, for at most `fuel` steps,
and returns `none` only if the computation is still pending when it stops. -/
def runBlocking {α : Type} : Nat → AsyncComp α → Option (Except Err α)
  | _, AsyncComp.done v => some v
  | 0, AsyncComp.suspend _ => none
  | fuel + 1, AsyncComp.suspend k => runBlocking fuel k

/-- `Task.results` as an asynchronous computation: one suspension at its
single network call, then the resolved outcome. -/
def Task.resultsAsync (self : Task) (r : Response) : AsyncComp TaskResult :=
  AsyncComp.suspend (AsyncComp.done (self.results r))

/-! ### Network effects of construction

To state that construction performs no I/O, operations are wrapped in a
small effect language recording the requests they issue against a sequence
of available responses. -/

/-- A computation that may issue HTTP requests. -/
inductive Eff (α : Type) where
  | pure : α → Eff α
  | request : HttpRequest → (Response → Eff α) → Eff α

/-- The requests a computation issues, given the responses the server
provides in order. -/
def Eff.trace {α : Type} : Eff α → List Response → List HttpRequest
  | Eff.pure _, _ => []
  | Eff.request r _, [] => [r]
  | Eff.request r k, resp :: rest => r :: Eff.trace (k resp) rest

/-- `ApiServer.deployments` in the effect language: its single network call
followed by the pure processing of the response. -/
def ApiServer.deploymentsEff (self : ApiServer) : Eff (Except Err DeploymentCollection) :=
  Eff.request self.deploymentsRequest (fun r => Eff.pure (self.deployments r))

/-- `SessionCollection.create` in the effect language. -/
def SessionCollection.createEff (self : SessionCollection) : Eff (Except Err Session) :=
  Eff.request self.createRequest (fun r => Eff.pure (self.create r))

/-! ### Concrete sample values used by witnesses and counterexamples -/

def sampleClient : Client := ⟨"http://localhost:4501", false, 120⟩

def sampleTask : Task := Task.instance' sampleClient true "t1" "d1" "s1"

def sampleDeployment : Deployment := Deployment.instance' sampleClient true "d1"

def sampleApiServer : ApiServer := ApiServer.instance' sampleClient true "apiserver"

def sampleSessionCollection : SessionCollection :=
  SessionCollection.instance' sampleClient true "d1" []

def sampleTaskCollection : TaskCollection :=
  TaskCollection.instance' sampleClient true "d1" []

def sampleDeploymentCollection : DeploymentCollection :=
  DeploymentCollection.instance' sampleClient true []

/-- A 404 response to an events connection attempt. -/
def r404 : StreamResponse := ⟨404, []⟩

/-- A 500 response to an events connection attempt. -/
def r500stream : StreamResponse := ⟨500, []⟩

def evLine1 : String := "\x7b\"event\": 1\x7d"

def evLine2 : String := "\x7b\"event\": 2\x7d"

def evLine3 : String := "\x7b\"event\": 3\x7d"

/-- A successful events connection streaming three JSON lines. -/
def r200three : StreamResponse := ⟨200, [evLine1, evLine2, evLine3]⟩

def ev1 : Json := Json.obj [("event", Json.num 1)]

def ev2 : Json := Json.obj [("event", Json.num 2)]

def ev3 : Json := Json.obj [("event", Json.num 3)]

/-- A 200 deployments-list response with two entries. -/
def respAB : Response := ⟨200, "[\"a\", \"b\"]"⟩

/-- A 200 deployments-list response with one entry. -/
def respA : Response := ⟨200, "[\"a\"]"⟩

/-- The status body `\x7b"deployments": ["a", "b"]\x7d`. -/
def statusBodyAB : String := "\x7b\"deployments\": [\"a\", \"b\"]\x7d"

/-- The healthy status message the source builds for deployments `a`, `b`. -/
def healthyMsgAB : String :=
  "Llama Deploy is up and running.\nActive deployments:\n- a\n- b"

/-- A doubly-encoded task-result body: a JSON string whose contents are the
JSON serialization of a task result. -/
def doubleResultBody : String := "\"\x7b\\\"result\\\": \\\"ok\\\"\x7d\""

/-- A task-result body that is directly the JSON object of a task result. -/
def directResultBody : String := "\x7b\"result\": \"ok\"\x7d"

/-! ## Helper lemmas -/

theorem pyDictInsert_mem {α : Type} (acc : List (String × α)) (kv p : String × α)
    (h : p ∈ pyDictInsert acc kv) : p ∈ acc ∨ p = kv := by
  unfold pyDictInsert at h
  split at h
  · rcases List.mem_map.mp h with ⟨q, hq, hm⟩
    by_cases hb : (q.1 == kv.1) = true
    · right; rw [← hm, if_pos hb]
    · left; rw [← hm, if_neg hb]; exact hq
  · rcases List.mem_append.mp h with h1 | h1
    · exact Or.inl h1
    · simp only [List.mem_singleton] at h1
      exact Or.inr h1

theorem pyDict_foldl_mem {α : Type} (l : List (String × α)) :
    ∀ (acc : List (String × α)) (p : String × α),
      p ∈ l.foldl pyDictInsert acc → p ∈ acc ∨ p ∈ l := by
  induction l with
  | nil => intro acc p h; exact Or.inl h
  | cons x xs ih =>
    intro acc p h
    rcases ih (pyDictInsert acc x) p h with h1 | h1
    · rcases pyDictInsert_mem acc x p h1 with h2 | h2
      · exact Or.inl h2
      · exact Or.inr (by rw [h2]; exact List.mem_cons_self x xs)
    · exact Or.inr (List.mem_cons_of_mem x h1)

/-- Every pair of a Python dict comes from the pair sequence it was built from. -/
theorem pyDict_mem {α : Type} (l : List (String × α)) (p : String × α)
    (h : p ∈ pyDict l) : p ∈ l := by
  rcases pyDict_foldl_mem l [] p h with h1 | h1
  · exact absurd h1 (List.not_mem_nil p)
  · exact h1

/-! ## Claims -/

/-- C1: in `Task.events`, a 404 on a connection attempt is not an error: the
generator sleeps the fixed poll interval (default 0.5) and retries, so the
response sequence [404, 404, 200-with-3-lines] produces exactly two
poll-interval sleeps followed by the three decoded events, in order, ending
cleanly with no error. -/
theorem c1_events_404_retry :
    (∀ (t : Task) (r : StreamResponse) (rest : List StreamResponse),
      r.status_code = 404 →
      t.events (r :: rest) =
        (EventsItem.sleep DEFAULT_POLL_INTERVAL :: (t.events rest).1,
          (t.events rest).2)) ∧
    DEFAULT_POLL_INTERVAL = 1 / 2 ∧
    sampleTask.events [r404, r404, r200three] =
      ([EventsItem.sleep DEFAULT_POLL_INTERVAL, EventsItem.sleep DEFAULT_POLL_INTERVAL,
        EventsItem.yieldEv ev1, EventsItem.yieldEv ev2, EventsItem.yieldEv ev3],
        EventsOutcome.done) := by
  refine ⟨?_, rfl, by rfl⟩
  intro t r rest h
  simp [Task.events, h]

/-- Witness for C1 at a concrete 404 response. -/
theorem c1_events_404_retry_witness :
    sampleTask.events (r404 :: [r200three]) =
      (EventsItem.sleep DEFAULT_POLL_INTERVAL :: (sampleTask.events [r200three]).1,
        (sampleTask.events [r200three]).2) :=
  c1_events_404_retry.1 sampleTask r404 [r200three] (by rfl)

/-- C2: in `Task.events`, any HTTP error status other than 404 is fatal at
once — no sleep, no yielded event, the status error is raised immediately;
in particular a single 500 response fails immediately with no events. -/
theorem c2_events_non404_fatal :
    (∀ (t : Task) (r : StreamResponse) (rest : List StreamResponse),
      400 ≤ r.status_code → r.status_code ≠ 404 →
      t.events (r :: rest) = ([], EventsOutcome.failed (Err.httpStatus r.status_code))) ∧
    sampleTask.events [r500stream] = ([], EventsOutcome.failed (Err.httpStatus 500)) := by
  refine ⟨?_, by rfl⟩
  intro t r rest h400 h404
  have hns : ¬ (200 ≤ r.status_code ∧ r.status_code < 300) := by omega
  simp [Task.events, hns, h404]

/-- Witness for C2 at a concrete 500 response. -/
theorem c2_events_non404_fatal_witness :
    sampleTask.events [r500stream] =
      ([], EventsOutcome.failed (Err.httpStatus r500stream.status_code)) :=
  c2_events_non404_fatal.1 sampleTask r500stream [] (by decide) (by decide)

/-- C3: `ApiServer.status` maps a connection failure to `DOWN` without
raising; an error status (≥ 400, body decoding as JSON) to `UNHEALTHY`; and
a 200 response with body `\x7b"deployments": ["a", "b"]\x7d` to `HEALTHY`
with a message listing both names and the `deployments` field equal to that
list. -/
theorem c3_status_mapping :
    (∀ (a : ApiServer), a.status (Except.error ()) =
      Except.ok ⟨StatusEnum.DOWN, "API Server is down", []⟩) ∧
    (∀ (a : ApiServer) (r : Response), 400 ≤ r.status_code →
      (∃ j, parseJsonStr r.body = some j) →
      a.status (Except.ok r) = Except.ok ⟨StatusEnum.UNHEALTHY, r.body, []⟩) ∧
    (∀ (a : ApiServer), a.status (Except.ok ⟨200, statusBodyAB⟩) =
      Except.ok ⟨StatusEnum.HEALTHY, healthyMsgAB, [Json.str "a", Json.str "b"]⟩) := by
  refine ⟨fun a => rfl, ?_, fun a => by rfl⟩
  rintro a r h400 ⟨j, hj⟩
  unfold ApiServer.status
  dsimp only
  rw [if_pos h400, hj]

/-- Witness for C3 at a concrete 500 response with a JSON body. -/
theorem c3_status_mapping_witness :
    sampleApiServer.status (Except.ok ⟨500, "\x7b\x7d"⟩) =
      Except.ok ⟨StatusEnum.UNHEALTHY, "\x7b\x7d", []⟩ :=
  c3_status_mapping.2.1 sampleApiServer ⟨500, "\x7b\x7d"⟩ (by decide) ⟨Json.obj [], by rfl⟩

/-- C4: every operation returning a new resource object passes
`make_sync=self._instance_is_sync` to `instance`, so the returned model or
collection — and every item inside a returned collection — carries the same
sync/async mode as the resource the method was invoked on. -/
theorem c4_make_sync_propagation :
    (∀ (sc : SessionCollection) (r : Response) (s : Session),
      sc.create r = Except.ok s → s.make_sync = sc.make_sync) ∧
    (∀ (tc : TaskCollection) (r : Response) (t : Task),
      tc.create r = Except.ok t → t.make_sync = tc.make_sync) ∧
    (∀ (dc : DeploymentCollection) (r : Response) (d : Deployment),
      dc.create r = Except.ok d → d.make_sync = dc.make_sync) ∧
    (∀ (dc : DeploymentCollection) (i : String) (r : Response),
      (dc.get i r).make_sync = dc.make_sync) ∧
    (∀ (d : Deployment) (r : Response) (tc : TaskCollection),
      d.tasks r = Except.ok tc →
        tc.make_sync = d.make_sync ∧ ∀ p ∈ tc.items, p.2.make_sync = d.make_sync) ∧
    (∀ (d : Deployment) (r : Response) (sc : SessionCollection),
      d.sessions r = Except.ok sc →
        sc.make_sync = d.make_sync ∧ ∀ p ∈ sc.items, p.2.make_sync = d.make_sync) ∧
    (∀ (a : ApiServer) (r : Response) (dc : DeploymentCollection),
      a.deployments r = Except.ok dc →
        dc.make_sync = a.make_sync ∧ ∀ p ∈ dc.items, p.2.make_sync = a.make_sync) := by
  refine ⟨?_, ?_, ?_, ?_, ?_, ?_, ?_⟩
  · intro sc r s h
    unfold SessionCollection.create at h
    repeat' split at h
    all_goals cases h
    rfl
  · intro tc r t h
    unfold TaskCollection.create at h
    repeat' split at h
    all_goals cases h
    rfl
  · intro dc r d h
    unfold DeploymentCollection.create at h
    repeat' split at h
    all_goals cases h
    rfl
  · intro dc i r
    rfl
  · intro d r tc h
    unfold Deployment.tasks at h
    repeat' split at h
    all_goals cases h
    exact ⟨rfl, by intro p hp; exact absurd hp (List.not_mem_nil p)⟩
  · intro d r sc h
    unfold Deployment.sessions at h
    repeat' split at h
    all_goals cases h
    exact ⟨rfl, by intro p hp; exact absurd hp (List.not_mem_nil p)⟩
  · intro a r dc h
    unfold ApiServer.deployments at h
    repeat' split at h
    all_goals cases h
    refine ⟨rfl, ?_⟩
    intro p hp
    rcases List.mem_map.mp (pyDict_mem _ p hp) with ⟨n, _, hpn⟩
    rw [← hpn]
    rfl

/-- Witness for C4: each fallible operation applied at a concrete response. -/
theorem c4_make_sync_propagation_witness :
    (Session.instance' sampleClient true "s9").make_sync
        = sampleSessionCollection.make_sync ∧
    (Task.instance' sampleClient true "t9" "d1" "s9").make_sync
        = sampleTaskCollection.make_sync ∧
    (Deployment.instance' sampleClient true "dep").make_sync
        = sampleDeploymentCollection.make_sync ∧
    (sampleDeploymentCollection.get "d1" ⟨200, "null"⟩).make_sync
        = sampleDeploymentCollection.make_sync ∧
    ((TaskCollection.instance' sampleClient true "d1" []).make_sync
        = sampleDeployment.make_sync ∧
      ∀ p ∈ (TaskCollection.instance' sampleClient true "d1" []).items,
        p.2.make_sync = sampleDeployment.make_sync) ∧
    ((SessionCollection.instance' sampleClient true "d1" []).make_sync
        = sampleDeployment.make_sync ∧
      ∀ p ∈ (SessionCollection.instance' sampleClient true "d1" []).items,
        p.2.make_sync = sampleDeployment.make_sync) ∧
    ((DeploymentCollection.instance' sampleClient true
          [("id", Deployment.instance' sampleClient true "a")]).make_sync
        = sampleApiServer.make_sync ∧
      ∀ p ∈ (DeploymentCollection.instance' sampleClient true
          [("id", Deployment.instance' sampleClient true "a")]).items,
        p.2.make_sync = sampleApiServer.make_sync) :=
  ⟨c4_make_sync_propagation.1 sampleSessionCollection
      ⟨200, "\x7b\"session_id\": \"s9\"\x7d"⟩ _ (by rfl),
    c4_make_sync_propagation.2.1 sampleTaskCollection
      ⟨200, "\x7b\"task_id\": \"t9\", \"session_id\": \"s9\"\x7d"⟩ _ (by rfl),
    c4_make_sync_propagation.2.2.1 sampleDeploymentCollection
      ⟨200, "\x7b\"name\": \"dep\"\x7d"⟩ _ (by rfl),
    c4_make_sync_propagation.2.2.2.1 sampleDeploymentCollection "d1" ⟨200, "null"⟩,
    c4_make_sync_propagation.2.2.2.2.1 sampleDeployment ⟨200, "[]"⟩ _ (by rfl),
    c4_make_sync_propagation.2.2.2.2.2.1 sampleDeployment ⟨200, "[]"⟩ _ (by rfl),
    c4_make_sync_propagation.2.2.2.2.2.2 sampleApiServer respA _ (by rfl)⟩

/-- C5 evaluation: the listing operations key every item under the literal
string `"id"`, so the two-entry list response `["a", "b"]` produces a
collection holding a single item (the last entry) instead of two. -/
theorem c5_listing_drops_items :
    (sampleApiServer.deployments respAB).map (fun c => c.items.length) = Except.ok 1 ∧
    (sampleApiServer.deployments respAB).map (fun c => c.items) =
      Except.ok [("id", Deployment.instance' sampleClient true "b")] := by
  exact ⟨by rfl, by rfl⟩

/-- C6: the blocking form of an operation drives the single asynchronous
implementation to completion on its own execution context: run with enough
steps, it returns exactly the resolved value or resolved error — never a
pending computation — and for `Task.results` in particular the blocking form
returns the very outcome the asynchronous form resolves to. -/
theorem c6_sync_runs_async_to_completion :
    (∀ (α : Type) (c : AsyncComp α), runBlocking c.depth c = some c.resolve) ∧
    (∀ (t : Task) (r : Response),
      runBlocking (t.resultsAsync r).depth (t.resultsAsync r) = some (t.results r)) := by
  have key : ∀ (α : Type) (c : AsyncComp α), runBlocking c.depth c = some c.resolve := by
    intro α c
    induction c with
    | done v => rfl
    | suspend k ih => simpa [AsyncComp.depth, AsyncComp.resolve, runBlocking] using ih
  exact ⟨key, fun t r => key TaskResult (t.resultsAsync r)⟩

/-- C7 (amended): every request issued through the shared client carries the
caller-supplied TLS-verification and timeout options; the streaming events
request of `Task.events` carries the TLS-verification option but no
caller-supplied timeout (the HTTP library default applies). -/
theorem c7_requests_carry_options_amended :
    (∀ (sc : SessionCollection) (sid : String),
      (sc.deleteRequest sid).verify = !sc.client.disable_ssl ∧
      (sc.deleteRequest sid).timeout = some sc.client.timeout) ∧
    (∀ (sc : SessionCollection),
      sc.createRequest.verify = !sc.client.disable_ssl ∧
      sc.createRequest.timeout = some sc.client.timeout) ∧
    (∀ (t : Task),
      t.resultsRequest.verify = !t.client.disable_ssl ∧
      t.resultsRequest.timeout = some t.client.timeout) ∧
    (∀ (tc : TaskCollection),
      tc.runRequest.verify = !tc.client.disable_ssl ∧
      tc.runRequest.timeout = some tc.client.timeout) ∧
    (∀ (tc : TaskCollection),
      tc.createRequest.verify = !tc.client.disable_ssl ∧
      tc.createRequest.timeout = some tc.client.timeout) ∧
    (∀ (d : Deployment),
      d.tasksRequest.verify = !d.client.disable_ssl ∧
      d.tasksRequest.timeout = some d.client.timeout) ∧
    (∀ (d : Deployment),
      d.sessionsRequest.verify = !d.client.disable_ssl ∧
      d.sessionsRequest.timeout = some d.client.timeout) ∧
    (∀ (dc : DeploymentCollection),
      dc.createRequest.verify = !dc.client.disable_ssl ∧
      dc.createRequest.timeout = some dc.client.timeout) ∧
    (∀ (dc : DeploymentCollection) (i : String),
      (dc.getRequest i).verify = !dc.client.disable_ssl ∧
      (dc.getRequest i).timeout = some dc.client.timeout) ∧
    (∀ (a : ApiServer),
      a.statusRequest.verify = !a.client.disable_ssl ∧
      a.statusRequest.timeout = some a.client.timeout) ∧
    (∀ (a : ApiServer),
      a.deploymentsRequest.verify = !a.client.disable_ssl ∧
      a.deploymentsRequest.timeout = some a.client.timeout) ∧
    (∀ (t : Task),
      t.eventsRequest.verify = !t.client.disable_ssl ∧
      t.eventsRequest.timeout = none) := by
  refine ⟨fun sc sid => ⟨rfl, rfl⟩, fun sc => ⟨rfl, rfl⟩, fun t => ⟨rfl, rfl⟩,
    fun tc => ⟨rfl, rfl⟩, fun tc => ⟨rfl, rfl⟩, fun d => ⟨rfl, rfl⟩, fun d => ⟨rfl, rfl⟩,
    fun dc => ⟨rfl, rfl⟩, fun dc i => ⟨rfl, rfl⟩, fun a => ⟨rfl, rfl⟩, fun a => ⟨rfl, rfl⟩,
    fun t => ⟨rfl, rfl⟩⟩

/-- C7 counterexample: for a concrete client whose timeout is 120, the
streaming events request carries no timeout option at all, so not every
request of the layer carries the caller-supplied timeout. -/
theorem c7_events_timeout_counterexample :
    sampleTask.eventsRequest.timeout ≠ some sampleTask.client.timeout := by
  decide

/-- C8 (amended): for every response to the status check with status ≥ 400
whose body is valid JSON, `ApiServer.status` returns an `UNHEALTHY` status
and does not raise; a body that fails to decode raises instead (see the
counterexample). -/
theorem c8_error_status_unhealthy_amended :
    ∀ (a : ApiServer) (r : Response), 400 ≤ r.status_code →
      (∃ j, parseJsonStr r.body = some j) →
      ∃ st, a.status (Except.ok r) = Except.ok st ∧ st.status = StatusEnum.UNHEALTHY := by
  rintro a r h400 ⟨j, hj⟩
  refine ⟨⟨StatusEnum.UNHEALTHY, r.body, []⟩, ?_, rfl⟩
  unfold ApiServer.status
  dsimp only
  rw [if_pos h400, hj]

/-- Witness for C8 at a concrete 503 response with JSON body `null`. -/
theorem c8_error_status_unhealthy_amended_witness :
    ∃ st, sampleApiServer.status (Except.ok ⟨503, "null"⟩) = Except.ok st ∧
      st.status = StatusEnum.UNHEALTHY :=
  c8_error_status_unhealthy_amended sampleApiServer ⟨503, "null"⟩ (by decide)
    ⟨Json.null, by rfl⟩

/-- C8 counterexample: a 500 response whose body `"oops"` is not valid JSON
makes `ApiServer.status` raise a decode error (`body = r.json()` runs before
the `UNHEALTHY` status is returned), so the claim does not hold regardless
of the body's content. -/
theorem c8_nonjson_body_counterexample :
    sampleApiServer.status (Except.ok ⟨500, "oops"⟩) = Except.error Err.decodeError := by
  rfl

/-- C9: construction (`instance`) of every model and collection kind is pure
metadata assembly issuing no request, for every choice of client, mode, id
and items; the network traffic of an operation starts only when the method
itself runs (its effect opens with the method's request). -/
theorem c9_construction_no_requests :
    (∀ (env : List Response) (c : Client) (ms : Bool) (i : String),
      (Eff.pure (Session.instance' c ms i)).trace env = []) ∧
    (∀ (env : List Response) (c : Client) (ms : Bool) (i d s : String),
      (Eff.pure (Task.instance' c ms i d s)).trace env = []) ∧
    (∀ (env : List Response) (c : Client) (ms : Bool) (i : String),
      (Eff.pure (Deployment.instance' c ms i)).trace env = []) ∧
    (∀ (env : List Response) (c : Client) (ms : Bool) (i : String),
      (Eff.pure (ApiServer.instance' c ms i)).trace env = []) ∧
    (∀ (env : List Response) (c : Client) (ms : Bool) (d : String)
        (its : List (String × Session)),
      (Eff.pure (SessionCollection.instance' c ms d its)).trace env = []) ∧
    (∀ (env : List Response) (c : Client) (ms : Bool) (d : String)
        (its : List (String × Task)),
      (Eff.pure (TaskCollection.instance' c ms d its)).trace env = []) ∧
    (∀ (env : List Response) (c : Client) (ms : Bool)
        (its : List (String × Deployment)),
      (Eff.pure (DeploymentCollection.instance' c ms its)).trace env = []) ∧
    (∀ (env : List Response) (a : ApiServer),
      a.deploymentsEff.trace env = [a.deploymentsRequest]) ∧
    (∀ (env : List Response) (sc : SessionCollection),
      sc.createEff.trace env = [sc.createRequest]) := by
  refine ⟨fun env c ms i => rfl, fun env c ms i d s => rfl, fun env c ms i => rfl,
    fun env c ms i => rfl, fun env c ms d its => rfl, fun env c ms d its => rfl,
    fun env c ms its => rfl, ?_, ?_⟩
  · intro env a
    cases env with
    | nil => rfl
    | cons resp rest => rfl
  · intro env sc
    cases env with
    | nil => rfl
    | cons resp rest => rfl

/-- C10: `Task.results` succeeds only on a doubly-encoded body — a JSON
string whose contents are themselves the JSON document of a task result —
and raises a validation error on every body that is directly the JSON
object of a task result. -/
theorem c10_results_double_decode :
    (∀ (t : Task) (r : Response) (res : TaskResult),
      t.results r = Except.ok res →
      ∃ s j, parseJsonStr r.body = some (Json.str s) ∧
        parseJsonStr s = some j ∧ validateTaskResult j = Except.ok res) ∧
    (∀ (t : Task) (r : Response) (fs : List (String × Json)) (tr : TaskResult),
      parseJsonStr r.body = some (Json.obj fs) →
      validateTaskResult (Json.obj fs) = Except.ok tr →
      t.results r = Except.error Err.validationError) := by
  constructor
  · intro t r res h
    unfold Task.results at h
    split at h
    · cases h
    case _ j hj =>
      unfold TaskResult.model_validate_json at h
      split at h
      case _ s =>
        split at h
        · cases h
        case _ j2 hj2 => exact ⟨s, j2, hj, hj2, h⟩
      all_goals cases h
  · intro t r fs tr hbody hval
    unfold Task.results
    rw [hbody]
    rfl

/-- Witness for C10: the success shape at a concrete doubly-encoded body, and
the failure at a concrete directly-encoded body. -/
theorem c10_results_double_decode_witness :
    (∃ s j, parseJsonStr doubleResultBody = some (Json.str s) ∧
      parseJsonStr s = some j ∧ validateTaskResult j = Except.ok ⟨"ok"⟩) ∧
    sampleTask.results ⟨200, directResultBody⟩ = Except.error Err.validationError :=
  ⟨c10_results_double_decode.1 sampleTask ⟨200, doubleResultBody⟩ ⟨"ok"⟩ (by rfl),
    c10_results_double_decode.2 sampleTask ⟨200, directResultBody⟩
      [("result", Json.str "ok")] ⟨"ok"⟩ (by rfl) (by rfl)⟩

end LlamaDeploy
